import Mathlib

/-!
Shallow embedding of the geolocation / deduplication / consensus-merging /
deferred-evidence engine of smoke-classifier/detect_fire.py, together with
proofs of its stated properties.

Conventions:
- latitude/longitude coordinates and scores are rationals (the source uses
  Python floats, but none of the verified properties depend on rounding);
- timestamps are integers (time.time() values compared with integer-like
  comparisons in the source);
- the shapely geometry library used by getPolygonIntersection is modelled as
  an abstract backend (structure GeoLib); a concrete computable backend
  (ratGeo, Sutherland-Hodgman clipping plus shoelace area) instantiates it
  for concrete evaluations;
- the SQL tables (detections, probables) are modelled as in-memory lists and
  the WHERE clauses of the source queries become List.filter conditions;
- Python assert failures and uncaught exceptions are modelled by returning
  none from the embedded function (abort), never by a default value.
-/

namespace Firecam

/-- A geographic coordinate: (latitude, longitude). -/
abbrev Coord := ℚ × ℚ

/-- A polygon, as the ordered vertex list used throughout detect_fire.py. -/
abbrev Poly := List Coord

/-- Abstract interface of the shapely operations used by
detect_fire.py getPolygonIntersection and publishAlert:
Polygon.intersects, Polygon.intersection, .area, .exterior.coords, and
Polygon.intersects(Point). -/
structure GeoLib where
  intersects : Poly → Poly → Bool
  intersection : Poly → Poly → Poly
  area : Poly → ℚ
  exterior : Poly → Poly
  containsPoint : Poly → Coord → Bool

/-- Embedding of detect_fire.py getPolygonIntersection (lines 673-694):
returns None when the polygons do not intersect, or when the intersection
area is exactly zero (point/touching intersections treated as not
intersecting); otherwise the vertex list of the intersection region. -/
def getPolygonIntersection (g : GeoLib) (coords1 coords2 : Poly) : Option Poly :=
  if g.intersects coords1 coords2 = false then none
  else
    let intPoly := g.intersection coords1 coords2
    if g.area intPoly = 0 then none
    else some (g.exterior intPoly)

/-- The hard-coded coastline polygon of detect_fire.py intersectLand
(lines 717-742), transcribed verbatim. -/
def landVertices : Poly := [
    (42.252, -114.000), (42.252, -124.411), (41.996, -124.211), (41.814, -124.231),
    (41.784, -124.255), (41.746, -124.203), (41.737, -124.159), (41.657, -124.134),
    (41.593, -124.100), (41.562, -124.096), (41.546, -124.075), (41.531, -124.080),
    (41.437, -124.063), (41.286, -124.090), (41.228, -124.086), (41.226, -124.108),
    (41.157, -124.101), (41.156, -124.135), (41.138, -124.157), (41.100, -124.162),
    (41.070, -124.158), (41.031, -124.116), (40.931, -124.131), (40.868, -124.159),
    (40.844, -124.077), (40.802, -124.135), (40.796, -124.181), (40.754, -124.194),
    (40.723, -124.222), (40.688, -124.201), (40.691, -124.280), (40.443, -124.411),
    (40.242, -124.325), (39.750, -123.825), (39.494, -123.765), (39.362, -123.822),
    (39.285, -123.798), (38.936, -123.723), (38.236, -122.972), (38.026, -123.001),
    (37.908, -122.649), (37.767, -122.512), (37.497, -122.490), (37.327, -122.397),
    (37.213, -122.419), (36.946, -122.078), (36.946, -121.892), (36.788, -121.776),
    (36.660, -121.826), (36.576, -121.975), (36.546, -121.934), (36.515, -121.947),
    (36.408, -121.918), (36.306, -121.901), (36.237, -121.818), (36.156, -121.671),
    (36.020, -121.570), (36.003, -121.504), (35.881, -121.456), (35.770, -121.325),
    (35.714, -121.312), (35.671, -121.283), (35.642, -121.200), (35.631, -121.159),
    (35.461, -121.001), (35.445, -120.901), (35.366, -120.866), (35.255, -120.897),
    (35.163, -120.762), (35.164, -120.691), (35.114, -120.635), (35.010, -120.639),
    (34.903, -120.670), (34.884, -120.640), (34.859, -120.608), (34.758, -120.635),
    (34.705, -120.601), (34.568, -120.636), (34.540, -120.549), (34.457, -120.470),
    (34.464, -120.093), (34.434, -119.953), (34.407, -119.860), (34.395, -119.715),
    (34.420, -119.601), (34.353, -119.434), (34.276, -119.304), (34.153, -119.219),
    (34.084, -119.052), (34.009, -118.808), (34.037, -118.533), (33.824, -118.387),
    (33.773, -118.425), (33.707, -118.289), (33.768, -118.167), (33.617, -117.937),
    (33.546, -117.801), (33.460, -117.714), (33.428, -117.628), (33.378, -117.586),
    (33.204, -117.390), (33.026, -117.287), (32.916, -117.256), (32.849, -117.259),
    (32.843, -117.286), (32.771, -117.255), (32.664, -117.242), (32.592, -117.131),
    (32.536, -117.124), (32.100, -116.950), (32.100, -114.000)]

/-- Embedding of detect_fire.py intersectLand (lines 716-743). -/
def intersectLand (g : GeoLib) (triangle : Poly) : Option Poly :=
  getPolygonIntersection g triangle landVertices

/-! A concrete, computable geometry backend used to evaluate the embedded
functions on concrete inputs: Sutherland-Hodgman polygon clipping (exact for
the convex clip polygons appearing in the concrete examples) with shoelace
area.  It plays the role shapely plays at runtime. -/

/-- Is p on the left (inside) side of the directed edge a -> b (ccw polygons). -/
def insideEdge (a b p : Coord) : Bool :=
  decide (0 ≤ (b.1 - a.1) * (p.2 - a.2) - (b.2 - a.2) * (p.1 - a.1))

/-- Intersection point of segment p-q with the infinite line through a-b. -/
def lineIntersect (a b p q : Coord) : Coord :=
  let d1 := (b.1 - a.1) * (p.2 - a.2) - (b.2 - a.2) * (p.1 - a.1)
  let d2 := (b.1 - a.1) * (q.2 - a.2) - (b.2 - a.2) * (q.1 - a.1)
  let t := d1 / (d1 - d2)
  (p.1 + t * (q.1 - p.1), p.2 + t * (q.2 - p.2))

/-- The list of directed edges of a polygon (wrapping around). -/
def polyEdges (p : Poly) : List (Coord × Coord) := p.zip (p.rotate 1)

/-- One Sutherland-Hodgman clipping step: clip subject against edge a -> b. -/
def clipOnce (a b : Coord) (subject : Poly) : Poly :=
  (polyEdges subject).foldl (fun acc se =>
    if insideEdge a b se.2 then
      if insideEdge a b se.1 then acc ++ [se.2]
      else acc ++ [lineIntersect a b se.1 se.2, se.2]
    else
      if insideEdge a b se.1 then acc ++ [lineIntersect a b se.1 se.2]
      else acc) []

/-- Sutherland-Hodgman clipping of subject against a convex ccw clip polygon. -/
def clipPoly (subject clip : Poly) : Poly :=
  (polyEdges clip).foldl (fun s e => clipOnce e.1 e.2 s) subject

/-- Twice the signed (shoelace) area of a polygon. -/
def shoelace (p : Poly) : ℚ :=
  (polyEdges p).foldl (fun acc e => acc + (e.1.1 * e.2.2 - e.2.1 * e.1.2)) 0

/-- Computable absolute value on the rationals. -/
def qabs (x : ℚ) : ℚ := if x < 0 then -x else x

/-- Absolute polygon area from the shoelace formula. -/
def ratArea (p : Poly) : ℚ := qabs (shoelace p) / 2

/-- Concrete rational geometry backend. -/
def ratGeo : GeoLib where
  intersects := fun a b => !(clipPoly a b).isEmpty
  intersection := clipPoly
  area := ratArea
  exterior := fun p => p
  containsPoint := fun _ _ => false

/-- Unit square with one corner at the origin (ccw). -/
def unitSq : Poly := [(0, 0), (1, 0), (1, 1), (0, 1)]

/-- Unit square touching unitSq only at the single point (1, 1) (ccw). -/
def touchSq : Poly := [(1, 1), (2, 1), (2, 2), (1, 2)]

/-- A trivial geometry backend on which no two polygons ever intersect;
used to instantiate hypotheses of general theorems at concrete inputs. -/
def voidGeo : GeoLib where
  intersects := fun _ _ => false
  intersection := fun _ _ => []
  area := fun _ => 0
  exterior := fun p => p
  containsPoint := fun _ _ => false

/-! ### Detections table rows, recency query, dedup, consensus merging -/

/-- A row of the detections table, with the columns read by
getRecentDetections, isDuplicateDetection and intersectRecentDetections
(detect_fire.py insertDetectionsDB, lines 774-790). -/
structure DetectionRow where
  cameraName : String
  timestamp : Int
  sortId : Int
  polygon : Poly
  sourcePolygons : List Poly
  fireHeading : ℚ
  angularWidth : ℚ
  isproto : Nat
  weatherScore : ℚ
deriving DecidableEq

/-- Descending order on the sortId column (ORDER BY sortid DESC). -/
def sortIdDesc (a b : DetectionRow) : Prop := b.sortId ≤ a.sortId

instance : DecidableRel sortIdDesc :=
  fun a b => inferInstanceAs (Decidable (b.sortId ≤ a.sortId))

instance : IsTotal DetectionRow sortIdDesc :=
  ⟨fun a b => le_total b.sortId a.sortId⟩

instance : IsTrans DetectionRow sortIdDesc :=
  ⟨fun _ _ _ h1 h2 => le_trans h2 h1⟩

/-- Embedding of detect_fire.py getRecentDetections (lines 623-638):
SELECT * FROM detections WHERE timestamp > ts - 15*60 ORDER BY sortid DESC.
The SQL table is modelled as a list of rows; the WHERE clause is a filter
and the ORDER BY a sort by descending sortId. -/
def getRecentDetections (store : List DetectionRow) (timestamp : Int) : List DetectionRow :=
  List.insertionSort sortIdDesc
    (store.filter (fun r => decide (r.timestamp > timestamp - 15*60)))

/-- Python truthiness of a getPolygonIntersection result: None and the empty
list are falsy, a non-empty vertex list is truthy. -/
def truthyPoly : Option Poly → Bool
  | none => false
  | some l => !l.isEmpty

/-- The scanning loop of detect_fire.py intersectRecentDetections
(lines 709-713): return on the first recent detection whose polygon has a
truthy intersection with the given triangle. -/
def findIntersection (g : GeoLib) (triangle : Poly) :
    List DetectionRow → Option (Poly × List Poly)
  | [] => none
  | alert :: rest =>
    match getPolygonIntersection g triangle alert.polygon with
    | none => findIntersection g triangle rest
    | some inter =>
      if inter.isEmpty then findIntersection g triangle rest
      else some (inter, alert.sourcePolygons)

/-- Embedding of detect_fire.py intersectRecentDetections (lines 697-713). -/
def intersectRecentDetections (g : GeoLib) (store : List DetectionRow)
    (timestamp : Int) (triangle : Poly) : Option (Poly × List Poly) :=
  findIntersection g triangle (getRecentDetections store timestamp)

/-- The consensus-merging step of detect_fire.py fireDetected
(lines 1009-1015): on a match the new polygon is the intersection and the
source list is the match's sources with the new view polygon appended;
otherwise the new view polygon stands alone. -/
def consensusMerge (g : GeoLib) (store : List DetectionRow) (timestamp : Int)
    (cameraViewPoly : Poly) : Poly × List Poly :=
  match intersectRecentDetections g store timestamp cameraViewPoly with
  | some info => (info.1, info.2 ++ [cameraViewPoly])
  | none => (cameraViewPoly, [cameraViewPoly])

/-- Semantic intersection of the regions of a list of polygons, relative to
an interpretation of vertex lists as point sets. -/
def regionInter (region : Poly → Set Coord) : List Poly → Set Coord
  | [] => Set.univ
  | p :: ps => region p ∩ regionInter region ps

/-- The consensus invariant for one stored detection row: a non-empty source
list whose region intersection is exactly the stored polygon's region. -/
def GoodRow (region : Poly → Set Coord) (row : DetectionRow) : Prop :=
  row.sourcePolygons ≠ [] ∧ region row.polygon = regionInter region row.sourcePolygons

/-- A backend computes true region intersections: whenever
getPolygonIntersection returns a truthy polygon, that polygon's region is
the intersection of the operands' regions. -/
def RegionCorrect (g : GeoLib) (region : Poly → Set Coord) : Prop :=
  ∀ a b r, getPolygonIntersection g a b = some r → r ≠ [] →
    region r = region a ∩ region b

/-- One observation to be folded into the detections store:
(timestamp, view polygon, sortId of the inserted row). -/
structure Observation where
  timestamp : Int
  viewPoly : Poly
  sortId : Int

/-- Fold a sequence of observations into the detections store the way
fireDetected does: consensus-merge against the current store, then insert
the resulting row (detect_fire.py lines 1009-1025).  Fields not involved in
consensus merging are left at neutral values. -/
def runHistory (g : GeoLib) : List Observation → List DetectionRow
  | [] => []
  | obs :: rest =>
    let store := runHistory g rest
    let merged := consensusMerge g store obs.timestamp obs.viewPoly
    store ++ [{ cameraName := "", timestamp := obs.timestamp, sortId := obs.sortId,
                polygon := merged.1, sourcePolygons := merged.2,
                fireHeading := 0, angularWidth := 0, isproto := 0, weatherScore := 0 }]

/-- The full content of the consensus-merging claim, for a geometry backend
g whose truthy intersections compute true region intersections. -/
def ConsensusClaim (g : GeoLib) (region : Poly → Set Coord) : Prop :=
  (∀ store t, (getRecentDetections store t).Sorted sortIdDesc)
  ∧ (∀ store t tri, intersectRecentDetections g store t tri =
      ((getRecentDetections store t).find?
        (fun row => truthyPoly (getPolygonIntersection g tri row.polygon))).map
        (fun row => ((getPolygonIntersection g tri row.polygon).getD [], row.sourcePolygons)))
  ∧ (∀ store t tri inter sp, intersectRecentDetections g store t tri = some (inter, sp) →
      consensusMerge g store t tri = (inter, sp ++ [tri]))
  ∧ (∀ store t tri, intersectRecentDetections g store t tri = none →
      consensusMerge g store t tri = (tri, [tri]))
  ∧ (∀ store t tri,
      (consensusMerge g store t tri).2.length =
        match intersectRecentDetections g store t tri with
        | some info => info.2.length + 1
        | none => 1)
  ∧ (∀ obsList, ∀ row ∈ runHistory g obsList, GoodRow region row)

/-! ### Probable-observation dedup (probables table) -/

/-- A row of the probables table, with the columns used by
isDuplicateProbables (detect_fire.py recordProbables, lines 580-595). -/
structure ProbRow where
  cameraName : String
  heading : Int
  timestamp : Int
  protoNum : Nat
deriving DecidableEq

/-- The WHERE clause of detect_fire.py isDuplicateProbables (lines 612-614):
CameraName = c AND Heading = h AND timestamp > t - 60*60 AND timestamp < t
AND ProtoNum = p (both timestamp bounds strict). -/
def probablesQuery (store : List ProbRow) (cameraID : String) (heading : Int)
    (timestamp : Int) (protoNum : Nat) : List ProbRow :=
  store.filter (fun r =>
    r.cameraName == cameraID && r.heading == heading &&
    decide (r.timestamp > timestamp - 60*60) && decide (r.timestamp < timestamp) &&
    r.protoNum == protoNum)

/-- Embedding of detect_fire.py isDuplicateProbables (lines 599-620). -/
def isDuplicateProbables (store : List ProbRow) (cameraID : String) (heading : Int)
    (timestamp : Int) (protoNum : Nat) : Bool :=
  decide ((probablesQuery store cameraID heading timestamp protoNum).length > 0)

/-- The database insert done by detect_fire.py recordProbables (line 595). -/
def recordProbables (store : List ProbRow) (row : ProbRow) : List ProbRow :=
  store ++ [row]

/-- The probables sequencing of the main loop (detect_fire.py lines
1479-1480): recordProbables runs first, then isDuplicateProbables decides
suppression against the updated store. -/
def mainLoopProbablesCheck (store : List ProbRow) (cameraID : String) (heading : Int)
    (timestamp : Int) (protoNum : Nat) : Bool × List ProbRow :=
  let store2 := recordProbables store ⟨cameraID, heading, timestamp, protoNum⟩
  (isDuplicateProbables store2 cameraID heading timestamp protoNum, store2)

/-! ### Confirmed-event dedup and alert gating -/

/-- The WHERE clause of detect_fire.py isDuplicateDetection (lines 653-657):
rows of the detections table in the strict window (t - 2*60*60, t) whose
camera shares the query camera's location.  The location-group subquery
(sources table lookup) is modelled by a locationid function on camera
names. -/
def dedupQuery (store : List DetectionRow) (locId : String → Int)
    (cameraID : String) (timestamp : Int) : List DetectionRow :=
  store.filter (fun r =>
    decide (r.timestamp > timestamp - 2*60*60) && decide (r.timestamp < timestamp) &&
    (locId r.cameraName == locId cameraID))

/-- Embedding of detect_fire.py isDuplicateDetection (lines 641-670).
The loop body skips (continue) entries with an incompatible
prototype-model number and returns True on the first remaining entry whose
stored angular sector overlaps the new observation's sector; the sector
overlap test (img_archive.intersectsAngleRange) is an external collaborator
passed in as the overlap function. -/
def isDuplicateDetection (store : List DetectionRow) (locId : String → Int)
    (overlap : ℚ → ℚ → ℚ → ℚ → Bool) (cameraID : String)
    (fireHeading rangeAngle : ℚ) (timestamp : Int) (protoNum : Nat) : Bool :=
  (dedupQuery store locId cameraID timestamp).any (fun entry =>
    if protoNum = 0 ∧ entry.isproto > 1 then false
    else if protoNum > 0 ∧ protoNum ≠ entry.isproto then false
    else overlap entry.fireHeading entry.angularWidth fireHeading rangeAngle)

/-- An active prescribed burn: a geographic point. -/
structure Burn where
  latitude : ℚ
  longitude : ℚ
deriving DecidableEq

/-- Embedding of detect_fire.py publishAlert (lines 959-972).
isProtoCam is the truthiness of isProto(cameraID); the prescribed-burn loop
returns False on the first burn point inside the camera's view polygon. -/
def publishAlert (g : GeoLib) (store : List DetectionRow) (locId : String → Int)
    (overlap : ℚ → ℚ → ℚ → ℚ → Bool) (weatherThreshold : ℚ) (isProtoCam : Bool)
    (cameraID : String) (fireHeading rangeAngle : ℚ) (timestamp : Int)
    (weatherScore : ℚ) (cameraViewPoly : Poly) (rxBurns : List Burn)
    (protoNum : Nat) : Bool :=
  if isProtoCam then false
  else if weatherScore < weatherThreshold then false
  else if isDuplicateDetection store locId overlap cameraID fireHeading rangeAngle
      timestamp protoNum then false
  else if rxBurns.any (fun burn =>
      g.containsPoint cameraViewPoly (burn.latitude, burn.longitude)) then false
  else true

/-! ### The Deferred Evidence Queue -/

/-- A PendingEvidenceUpdate entry of the fireUpdateQueue
(detect_fire.py enqueueFireUpdate, lines 1055-1061); the fireSegment
payload is opaque to the queue logic. -/
structure FireUpdate (σ : Type) where
  cameraID : String
  cameraHeading : Int
  timestamp : Int
  finalTimestamp : Int
  fireSegment : σ
deriving DecidableEq

/-- Ascending order on the finalTimestamp key (the sorted(...) key). -/
def finalTsLE {σ : Type} (a b : FireUpdate σ) : Prop :=
  a.finalTimestamp ≤ b.finalTimestamp

instance {σ : Type} : DecidableRel (finalTsLE (σ := σ)) :=
  fun a b => inferInstanceAs (Decidable (a.finalTimestamp ≤ b.finalTimestamp))

instance {σ : Type} : IsTotal (FireUpdate σ) finalTsLE :=
  ⟨fun a b => le_total a.finalTimestamp b.finalTimestamp⟩

instance {σ : Type} : IsTrans (FireUpdate σ) finalTsLE :=
  ⟨fun _ _ _ h1 h2 => le_trans h1 h2⟩

/-- POST_DETECTION_UPDATE_MINS (detect_fire.py line 61). -/
def POST_DETECTION_UPDATE_MINS : Int := 7

/-- Embedding of detect_fire.py enqueueFireUpdate (lines 1047-1064).
The Python assert on a duplicate (cameraID, timestamp) entry is modelled by
returning none (abort); past the post-detection horizon the queue is
returned unchanged; otherwise the new entry is appended and the queue
re-sorted ascending by finalTimestamp. -/
def enqueueFireUpdate {σ : Type} (now : Int) (queue : List (FireUpdate σ))
    (cameraID : String) (cameraHeading : Int) (timestamp finalTimestamp : Int)
    (fireSegment : σ) : Option (List (FireUpdate σ)) :=
  if (queue.filter (fun x => x.cameraID == cameraID && x.timestamp == timestamp)).length ≠ 0
  then none
  else if now > timestamp + POST_DETECTION_UPDATE_MINS * 60 then some queue
  else some (List.insertionSort finalTsLE
    (queue ++ [⟨cameraID, cameraHeading, timestamp, finalTimestamp, fireSegment⟩]))

/-- Embedding of detect_fire.py popFireUpdate (lines 1067-1072): inspect
only the head; pop it only when now is more than 60 seconds past its
finalTimestamp, otherwise return nothing and leave the queue unchanged. -/
def popFireUpdate {σ : Type} (now : Int) (queue : List (FireUpdate σ)) :
    Option (FireUpdate σ) × List (FireUpdate σ) :=
  match queue with
  | [] => (none, [])
  | head :: rest =>
    if now > head.finalTimestamp + 60 then (some head, rest) else (none, head :: rest)

/-! ### Deferred evidence processing -/

/-- The fields of a detections row as re-read by queryDetections
(detect_fire.py lines 823-844). -/
structure DetectData where
  adjScore : ℚ
  annotatedUrl : String
  croppedUrl : String
  mapUrl : String
  polygon : Poly
  sourcePolygons : List Poly
  isProto : Nat
  weatherScore : ℚ
  sortId : Int
  fireHeading : ℚ
  angularWidth : ℚ
deriving DecidableEq

/-- Result of detect_fire.py updateMovie (lines 1093-1109).  When the
archive holds no image at the detection time, the Python function returns a
2-tuple (None, None) that the caller unpacks into three variables, raising
a ValueError; noImage marks that path. -/
inductive UpdateMovieResult where
  | noImage
  | result (movieID : Option String) (finalTimestamp : Int) (isFinalMovie : Bool)
deriving DecidableEq

/-- The external collaborators consulted during deferred-evidence
processing, plus the configuration publishAlert reads. -/
structure PEnv where
  geo : GeoLib
  store : List DetectionRow
  locId : String → Int
  overlap : ℚ → ℚ → ℚ → ℚ → Bool
  weatherThreshold : ℚ
  isProtoCam : Bool
  protoNum : Nat
  rxBurns : List Burn
  detectData : Option DetectData
  newImage : Bool
  movieImgFound : Bool
  genMovieID : Option String
  genMovieFinalTs : Int
  genMoviePostCount : Nat

/-- Embedding of detect_fire.py updateMovie (lines 1093-1109): when an
image at the detection time exists, genMovie (external collaborator, fields
genMovieID / genMovieFinalTs / genMoviePostCount of the environment) is
invoked and the update is marked final exactly when the post-detection
frame count exceeds 2. -/
def updateMovie (env : PEnv) : UpdateMovieResult :=
  if env.movieImgFound = false then .noImage
  else .result env.genMovieID env.genMovieFinalTs (decide (env.genMoviePostCount > 2))

/-- Observable effects of one processEnqueuedUpdates invocation. -/
structure ProcessEffects where
  popped : Bool
  cameraID : String
  timestamp : Int
  checkedNewImage : Bool
  regenerated : Bool
  isFinalMovie : Bool
  updatedDetectionsMovie : Bool
  updatedAlertsMovie : Bool
  notified : Bool
  requeued : Bool
deriving DecidableEq

/-- Effects record with every flag cleared. -/
def noEffects : ProcessEffects :=
  { popped := false, cameraID := "", timestamp := 0, checkedNewImage := false,
    regenerated := false, isFinalMovie := false, updatedDetectionsMovie := false,
    updatedAlertsMovie := false, notified := false, requeued := false }

/-- The requeue step at the end of processEnqueuedUpdates (lines 1141-1142):
enqueueFireUpdate is invoked; an assert failure aborts (none); the requeued
flag records whether the entry was actually appended (the enqueue's own
post-detection-horizon check may silently discard it). -/
def requeueStep {σ : Type} (nowReq : Int) (q : List (FireUpdate σ))
    (fe : FireUpdate σ) (finalTimestamp : Int) (eff : ProcessEffects) :
    Option (ProcessEffects × List (FireUpdate σ)) :=
  match enqueueFireUpdate nowReq q fe.cameraID fe.cameraHeading fe.timestamp
      finalTimestamp fe.fireSegment with
  | none => none
  | some q2 => some ({ eff with requeued := decide (q2.length = q.length + 1) }, q2)

/-- Embedding of detect_fire.py processEnqueuedUpdates (lines 1112-1144).
nowPop is the wall clock at the popFireUpdate call, nowReq at the
re-enqueue; external collaborators (queryDetections, checkNewImage,
genMovie, rx_burns) are read from the environment.  A Python exception
(tuple-unpacking error in updateMovie, negative indexing of an empty
source-polygon list) aborts with none. -/
def processEnqueuedUpdates {σ : Type} (env : PEnv) (nowPop nowReq : Int)
    (queue : List (FireUpdate σ)) : Option (ProcessEffects × List (FireUpdate σ)) :=
  match popFireUpdate nowPop queue with
  | (none, q) => some (noEffects, q)
  | (some fe, q) =>
    let eff0 : ProcessEffects :=
      { noEffects with popped := true, cameraID := fe.cameraID, timestamp := fe.timestamp }
    match env.detectData with
    | none => requeueStep nowReq q fe fe.finalTimestamp eff0
    | some detectData =>
      let eff1 := { eff0 with checkedNewImage := true }
      if env.newImage = false then requeueStep nowReq q fe fe.finalTimestamp eff1
      else
        match updateMovie env with
        | .noImage => none
        | .result movieID finalTimestamp isFinalMovie =>
          let eff2 := { eff1 with regenerated := true, isFinalMovie := isFinalMovie }
          if movieID.isSome ∧ finalTimestamp ≠ 0 then
            let eff3 := { eff2 with updatedDetectionsMovie := true }
            match detectData.sourcePolygons.getLast? with
            | none => none
            | some cameraViewPoly =>
              let pub := publishAlert env.geo env.store env.locId env.overlap
                env.weatherThreshold env.isProtoCam fe.cameraID detectData.fireHeading
                detectData.angularWidth fe.timestamp detectData.weatherScore
                cameraViewPoly env.rxBurns env.protoNum
              let eff4 := if pub then
                  { eff3 with updatedAlertsMovie := true, notified := true }
                else eff3
              if isFinalMovie = false then requeueStep nowReq q fe finalTimestamp eff4
              else some (eff4, q)
          else some (eff2, q)

/-! ### fireDetected: persistence and notification effects -/

/-- The external collaborators and per-observation values consulted by
fireDetected: camera map location, heading-range computation, ignored-view
lookup, view-triangle construction (float trigonometry, abstracted as a
polygon-valued input), weather scoring, annotated-evidence generation, and
the configuration publishAlert reads. -/
structure FDEnv where
  geo : GeoLib
  store : List DetectionRow
  locId : String → Int
  overlap : ℚ → ℚ → ℚ → ℚ → Bool
  weatherThreshold : ℚ
  isProtoCam : Bool
  isprotoInt : Nat
  protoNum : Nat
  rxBurns : List Burn
  fireHeading : ℚ
  rangeAngle : ℚ
  ignoredView : Option ℚ
  triangle : Poly
  weatherScore : ℚ
  sortId : Int
  croppedID : Option String
  genFinalTimestamp : Int

/-- Observable effects of one fireDetected invocation. -/
structure FDEffects where
  ignored : Bool
  insertedDetection : Bool
  enqueued : Bool
  insertedAlert : Bool
  pubsub : Bool
  email : Bool
  sms : Bool
deriving DecidableEq

/-- fireDetected effects record with every flag cleared. -/
def fdNoEffects : FDEffects :=
  { ignored := false, insertedDetection := false, enqueued := false,
    insertedAlert := false, pubsub := false, email := false, sms := false }

/-- The detections row inserted by insertDetectionsDB
(detect_fire.py lines 774-790) for a given observation. -/
def insertedRow (env : FDEnv) (cameraID : String) (timestamp : Int)
    (polygon : Poly) (sourcePolygons : List Poly) : DetectionRow :=
  { cameraName := cameraID, timestamp := timestamp, sortId := env.sortId,
    polygon := polygon, sourcePolygons := sourcePolygons,
    fireHeading := env.fireHeading, angularWidth := env.rangeAngle,
    isproto := env.isprotoInt, weatherScore := env.weatherScore }

/-- Embedding of detect_fire.py fireDetected (lines 975-1044), returning
the effects, the updated deferred-evidence queue, and the updated
detections store.  An ignored view returns before any insertion; a null
land-clipped view polygon aborts (the source would fault downstream on the
None polygon); the detections insert happens before evidence generation and
before the alert gate; all outward notifications (alerts row, pubsub,
email, sms) happen only when publishAlert passes. -/
def fireDetected (env : FDEnv) (now : Int) (cameraID : String)
    (cameraHeading : Int) (timestamp : Int) (queue : List (FireUpdate Unit)) :
    Option (FDEffects × List (FireUpdate Unit) × List DetectionRow) :=
  if env.ignoredView.isSome then some ({ fdNoEffects with ignored := true }, queue, env.store)
  else
    match intersectLand env.geo env.triangle with
    | none => none
    | some cameraViewPoly =>
      let merged := consensusMerge env.geo env.store timestamp cameraViewPoly
      let store2 := env.store ++ [insertedRow env cameraID timestamp merged.1 merged.2]
      let eff1 := { fdNoEffects with insertedDetection := true }
      match env.croppedID with
      | none => some (eff1, queue, store2)
      | some _ =>
        match enqueueFireUpdate now queue cameraID cameraHeading timestamp
            env.genFinalTimestamp () with
        | none => none
        | some queue2 =>
          let eff2 := { eff1 with enqueued := true }
          if publishAlert env.geo store2 env.locId env.overlap env.weatherThreshold
              env.isProtoCam cameraID env.fireHeading env.rangeAngle timestamp
              env.weatherScore cameraViewPoly env.rxBurns env.protoNum then
            some ({ eff2 with
                    insertedAlert := true, pubsub := true,
                    email := true, sms := true }, queue2, store2)
          else some (eff2, queue2, store2)

/-! ### Concrete scenarios for counterexamples and witnesses -/

/-- A geometry backend on which every pair of polygons intersects with
positive area; intersection of a with b is reported as a itself. -/
def fullGeo : GeoLib where
  intersects := fun _ _ => true
  intersection := fun a _ => a
  area := fun _ => 1
  exterior := fun p => p
  containsPoint := fun _ _ => false

/-- The spec's queue-ordering scenario: enqueue final timestamps 50, 10, 30
into an empty queue (each entry's detection timestamp equals its final
timestamp, as at initial enqueue; current time 0 is within the horizon). -/
def demoQueue : Option (List (FireUpdate Unit)) :=
  (enqueueFireUpdate 0 [] "cam50" 0 50 50 ()).bind (fun q1 =>
    (enqueueFireUpdate 0 q1 "cam10" 0 10 10 ()).bind (fun q2 =>
      enqueueFireUpdate 0 q2 "cam30" 0 30 30 ()))

/-- Pop repeatedly and record the final timestamps, in pop order. -/
def popAll (now : Int) : Nat → List (FireUpdate Unit) → List Int
  | 0, _ => []
  | n + 1, q =>
    match popFireUpdate now q with
    | (some e, q2) => e.finalTimestamp :: popAll now n q2
    | (none, _) => []

/-- A stored detections row used by the deferred-evidence scenarios. -/
def demoDD : DetectData :=
  { adjScore := 1, annotatedUrl := "ann", croppedUrl := "crop", mapUrl := "map",
    polygon := [(0, 0), (1, 0), (0, 1)], sourcePolygons := [[(0, 0), (1, 0), (0, 1)]],
    isProto := 0, weatherScore := 1, sortId := 1, fireHeading := 0, angularWidth := 0 }

/-- Deferred-evidence environment: a new frame exists, genMovie succeeds
with 0 post-detection frames (non-terminal), and the alert gate passes. -/
def demoPEnv : PEnv :=
  { geo := voidGeo, store := [], locId := fun _ => 0, overlap := fun _ _ _ _ => false,
    weatherThreshold := 0, isProtoCam := false, protoNum := 0, rxBurns := [],
    detectData := some demoDD, newImage := true, movieImgFound := true,
    genMovieID := some "movie", genMovieFinalTs := 100, genMoviePostCount := 0 }

/-- A queue entry whose detection and final timestamps are both 0. -/
def staleEntry : FireUpdate Unit := ⟨"camA", 0, 0, 0, ()⟩

/-- The effects of processing staleEntry in demoPEnv at time 500 (past the
7-minute post-detection horizon). -/
def lateEffects : ProcessEffects :=
  { popped := true, cameraID := "camA", timestamp := 0, checkedNewImage := true,
    regenerated := true, isFinalMovie := false, updatedDetectionsMovie := true,
    updatedAlertsMovie := true, notified := true, requeued := false }

/-- The effects of processing staleEntry in demoPEnv at time 70 (within the
horizon): a non-terminal update that is requeued AND notified. -/
def earlyEffects : ProcessEffects :=
  { popped := true, cameraID := "camA", timestamp := 0, checkedNewImage := true,
    regenerated := true, isFinalMovie := false, updatedDetectionsMovie := true,
    updatedAlertsMovie := true, notified := true, requeued := true }

/-- fireDetected environment for the alert-gate-rejected scenario: a
prototype camera (gate fails) whose evidence generation succeeds. -/
def demoFDEnv : FDEnv :=
  { geo := fullGeo, store := [], locId := fun _ => 0, overlap := fun _ _ _ _ => false,
    weatherThreshold := 0, isProtoCam := true, isprotoInt := 1, protoNum := 0,
    rxBurns := [], fireHeading := 0, rangeAngle := 0, ignoredView := none,
    triangle := [(0, 0), (1, 0), (0, 1)], weatherScore := 1, sortId := 1,
    croppedID := some "crop", genFinalTimestamp := 10 }

/-- Expected fireDetected effects when the gate rejects: persisted and
enqueued, nothing outward. -/
def gateRejectedEffects : FDEffects :=
  { ignored := false, insertedDetection := true, enqueued := true,
    insertedAlert := false, pubsub := false, email := false, sms := false }

/-- A detections row within the two-hour dedup window of timestamp 200 at
location 0 (every camera maps to location 0 in the witness scenarios). -/
def demoDetRow : DetectionRow :=
  { cameraName := "other", timestamp := 100, sortId := 1, polygon := [],
    sourcePolygons := [], fireHeading := 0, angularWidth := 0, isproto := 0,
    weatherScore := 1 }

/-- The demo environment with 3 post-detection frames: terminal update. -/
def demoPEnvFinal : PEnv := { demoPEnv with genMoviePostCount := 3 }

/-- The effects of processing staleEntry in demoPEnvFinal at time 70: a
terminal ("final movie") update, notified and not requeued. -/
def finalEffects : ProcessEffects :=
  { popped := true, cameraID := "camA", timestamp := 0, checkedNewImage := true,
    regenerated := true, isFinalMovie := true, updatedDetectionsMovie := true,
    updatedAlertsMovie := true, notified := true, requeued := false }

/-- The detections store after the gate-rejected fireDetected run on
demoFDEnv: the observation's row is persisted. -/
def demoStore2 : List DetectionRow :=
  [insertedRow demoFDEnv "cam" 5 [(0, 0), (1, 0), (0, 1)] [[(0, 0), (1, 0), (0, 1)]]]

/-! ### Lemmas about the consensus scan -/

/-- The scanning loop returns exactly the first row of the list whose
polygon has a truthy intersection with the triangle, paired with that
intersection and the row's source polygons. -/
theorem findIntersection_eq_find? (g : GeoLib) (tri : Poly) (l : List DetectionRow) :
    findIntersection g tri l =
      (l.find? (fun row => truthyPoly (getPolygonIntersection g tri row.polygon))).map
        (fun row => ((getPolygonIntersection g tri row.polygon).getD [], row.sourcePolygons)) := by
  induction l with
  | nil => rfl
  | cons a rest ih =>
    cases h : getPolygonIntersection g tri a.polygon with
    | none => simp [findIntersection, List.find?, h, truthyPoly, ih]
    | some inter =>
      cases hi : inter.isEmpty with
      | true => simp [findIntersection, List.find?, h, hi, truthyPoly, ih]
      | false => simp [findIntersection, List.find?, h, hi, truthyPoly]

/-- Rows returned by the recency query are rows of the store. -/
theorem mem_of_mem_getRecentDetections {store : List DetectionRow} {t : Int}
    {row : DetectionRow} (h : row ∈ getRecentDetections store t) : row ∈ store := by
  have hp := (List.perm_insertionSort sortIdDesc
    (store.filter (fun r => decide (r.timestamp > t - 15*60)))).mem_iff (a := row)
  exact List.mem_of_mem_filter (hp.mp h)

/-- regionInter distributes over appending one polygon. -/
theorem regionInter_append (region : Poly → Set Coord) (xs : List Poly) (p : Poly) :
    regionInter region (xs ++ [p]) = regionInter region xs ∩ region p := by
  induction xs with
  | nil => simp [regionInter]
  | cons q qs ih => simp [regionInter, ih, Set.inter_assoc]

/-- One consensus-merge step preserves the consensus invariant. -/
theorem consensusMerge_good (g : GeoLib) (region : Poly → Set Coord)
    (hsem : RegionCorrect g region) (store : List DetectionRow) (t : Int) (tri : Poly)
    (hstore : ∀ row ∈ store, GoodRow region row) :
    (consensusMerge g store t tri).2 ≠ [] ∧
      region (consensusMerge g store t tri).1 =
        regionInter region (consensusMerge g store t tri).2 := by
  cases h : intersectRecentDetections g store t tri with
  | none =>
    simp [consensusMerge, h, regionInter]
  | some info =>
    obtain ⟨inter, sp⟩ := info
    have hfind := h
    rw [intersectRecentDetections, findIntersection_eq_find?] at hfind
    obtain ⟨row, hrow, hval⟩ := Option.map_eq_some'.mp hfind
    have hmem : row ∈ store :=
      mem_of_mem_getRecentDetections (List.mem_of_find?_eq_some hrow)
    have htruthy := List.find?_some hrow
    cases hpi : getPolygonIntersection g tri row.polygon with
    | none => rw [hpi] at htruthy; simp [truthyPoly] at htruthy
    | some l =>
      rw [hpi] at htruthy hval
      simp only [truthyPoly, Bool.not_eq_true'] at htruthy
      have hlne : l ≠ [] := by
        intro hnil; rw [hnil] at htruthy; simp at htruthy
      have hinter : inter = l := by
        have := congrArg Prod.fst hval; simpa using this.symm
      have hsp : sp = row.sourcePolygons := by
        have := congrArg Prod.snd hval; simpa using this.symm
      have hreg : region l = region tri ∩ region row.polygon := hsem _ _ _ hpi hlne
      obtain ⟨hne, hrowreg⟩ := hstore row hmem
      constructor
      · simp [consensusMerge, h]
      · have : region inter = regionInter region (sp ++ [tri]) := by
          rw [hinter, hsp, regionInter_append, ← hrowreg, hreg, Set.inter_comm]
        simpa [consensusMerge, h] using this

/-- Every row of a store built by repeated consensus-merge insertion
satisfies the consensus invariant. -/
theorem runHistory_good (g : GeoLib) (region : Poly → Set Coord)
    (hsem : RegionCorrect g region) (obsList : List Observation) :
    ∀ row ∈ runHistory g obsList, GoodRow region row := by
  induction obsList with
  | nil => intro row h; simp [runHistory] at h
  | cons obs rest ih =>
    intro row h
    simp only [runHistory, List.mem_append, List.mem_singleton] at h
    rcases h with h | h
    · exact ih row h
    · subst h
      have := consensusMerge_good g region hsem (runHistory g rest) obs.timestamp
        obs.viewPoly ih
      exact ⟨this.1, this.2⟩

/-! ### Claim theorems -/

/-- Claim C1: recent (15-minute) detections are scanned in descending
sortId order; the first stored detection whose polygon has a truthy
(non-degenerate) intersection with the new view polygon determines the new
event: its polygon becomes the intersection and its source list becomes the
match's sources with the new view polygon appended; absent a match the
event stands alone with a one-element source list; consequently, over any
history of such insertions, every persisted row's polygon is the region
intersection of its source polygons and the source-list length counts the
observations folded in. -/
theorem c1_consensus_merging (g : GeoLib) (region : Poly → Set Coord)
    (hsem : RegionCorrect g region) : ConsensusClaim g region := by
  refine ⟨?_, ?_, ?_, ?_, ?_, ?_⟩
  · intro store t
    exact List.sorted_insertionSort sortIdDesc _
  · intro store t tri
    exact findIntersection_eq_find? g tri _
  · intro store t tri inter sp h
    simp [consensusMerge, h]
  · intro store t tri h
    simp [consensusMerge, h]
  · intro store t tri
    cases h : intersectRecentDetections g store t tri with
    | none => simp [consensusMerge, h]
    | some info => simp [consensusMerge, h]
  · exact runHistory_good g region hsem

/-- Witness for C1: the consensus claim instantiated at the trivial
backend, whose region-correctness hypothesis holds vacuously. -/
theorem c1_consensus_merging_witness : ConsensusClaim voidGeo (fun _ => (∅ : Set Coord)) :=
  c1_consensus_merging voidGeo (fun _ => ∅) (by
    intro a b r h hr
    simp [getPolygonIntersection, voidGeo] at h)

/-- Claim C7: getPolygonIntersection returns null exactly when the
polygons do not intersect or the intersection area is exactly zero, and
otherwise the vertex list of the intersection region; intersectLand applies
the same primitive; two squares sharing only the boundary point (1,1)
intersect per the backend but with zero area, so the result is null, never
a degenerate polygon. -/
theorem c7_zero_area_intersection_is_null :
    (∀ (g : GeoLib) (a b : Poly),
      (getPolygonIntersection g a b = none ↔
        g.intersects a b = false ∨ g.area (g.intersection a b) = 0)
      ∧ ∀ r, getPolygonIntersection g a b = some r →
          r = g.exterior (g.intersection a b) ∧ g.intersects a b = true ∧
            ¬ g.area (g.intersection a b) = 0)
    ∧ (∀ (g : GeoLib) (t : Poly), intersectLand g t = getPolygonIntersection g t landVertices)
    ∧ ratGeo.intersects unitSq touchSq = true
    ∧ ratGeo.area (ratGeo.intersection unitSq touchSq) = 0
    ∧ getPolygonIntersection ratGeo unitSq touchSq = none := by
  refine ⟨fun g a b => ⟨?_, ?_⟩, fun g t => rfl, ?_, ?_, ?_⟩
  · constructor
    · intro h
      by_cases h1 : g.intersects a b = false
      · exact Or.inl h1
      · right
        by_contra h2
        simp [getPolygonIntersection, h1, h2] at h
    · intro h
      rcases h with h | h
      · simp [getPolygonIntersection, h]
      · by_cases h1 : g.intersects a b = false <;>
          simp [getPolygonIntersection, h1, h]
  · intro r h
    by_cases h1 : g.intersects a b = false
    · simp [getPolygonIntersection, h1] at h
    · by_cases h2 : g.area (g.intersection a b) = 0
      · simp [getPolygonIntersection, h1, h2] at h
      · simp only [getPolygonIntersection, h1, if_false, h2, if_neg,
          Option.some.injEq, ite_eq_right_iff] at h
        refine ⟨?_, by simpa using h1, h2⟩
        simp [getPolygonIntersection, h1, h2] at h
        exact h.symm
  · norm_num [ratGeo, clipPoly, clipOnce, polyEdges, insideEdge, lineIntersect,
      unitSq, touchSq, List.rotate]
  · norm_num [ratGeo, ratArea, qabs, shoelace, clipPoly, clipOnce, polyEdges,
      insideEdge, lineIntersect, unitSq, touchSq, List.rotate]
  · norm_num [getPolygonIntersection, ratGeo, ratArea, qabs, shoelace, clipPoly,
      clipOnce, polyEdges, insideEdge, lineIntersect, unitSq, touchSq, List.rotate]

/-- Witness for C7: the touching-squares conjunct, extracted. -/
theorem c7_zero_area_witness : getPolygonIntersection ratGeo unitSq touchSq = none :=
  c7_zero_area_intersection_is_null.2.2.2.2

/-- Claim C2: the Deferred Evidence Queue stays sorted ascending by final
timestamp across every enqueue; a poll inspects only the head and removes
it only when the current time is at least 60 seconds past its final
timestamp, otherwise the queue is unchanged and nothing is returned; and
enqueueing final timestamps 50, 10, 30 into an empty queue yields pop
order 10, 30, 50. -/
theorem c2_queue_ordering :
    (∀ (σ : Type) (now : Int) (queue : List (FireUpdate σ)) cameraID cameraHeading
        timestamp finalTimestamp fireSegment q2,
      queue.Sorted finalTsLE →
      enqueueFireUpdate now queue cameraID cameraHeading timestamp finalTimestamp
          fireSegment = some q2 →
      q2.Sorted finalTsLE)
    ∧ (∀ (σ : Type) (now : Int) (queue : List (FireUpdate σ)) e q2,
        popFireUpdate now queue = (some e, q2) →
        queue = e :: q2 ∧ e.finalTimestamp + 60 ≤ now)
    ∧ (∀ (σ : Type) (now : Int) (head : FireUpdate σ) rest,
        ¬ now > head.finalTimestamp + 60 →
        popFireUpdate now (head :: rest) = (none, head :: rest))
    ∧ demoQueue.map (popAll 1000 3) = some [10, 30, 50] := by
  refine ⟨?_, ?_, ?_, by decide⟩
  · intro σ now queue cameraID cameraHeading timestamp finalTimestamp fireSegment q2
      hsorted henq
    unfold enqueueFireUpdate at henq
    split_ifs at henq with h1 h2
    · injection henq with h
      subst h
      exact hsorted
    · injection henq with h
      subst h
      exact List.sorted_insertionSort finalTsLE _
  · intro σ now queue e q2 h
    cases queue with
    | nil => cases h
    | cons head rest =>
      simp only [popFireUpdate] at h
      split_ifs at h with hc
      · obtain ⟨h1, h2⟩ := Prod.mk.injEq .. ▸ h
        cases h1
        exact ⟨by rw [h2], by omega⟩
      · cases h
  · intro σ now head rest hc
    simp [popFireUpdate, hc]

/-- Witness for C2: enqueueing into the empty (sorted) queue yields a
sorted one-element queue. -/
theorem c2_queue_ordering_witness :
    enqueueFireUpdate (σ := Unit) 0 [] "cam" 0 5 5 () = some [⟨"cam", 0, 5, 5, ()⟩] ∧
    List.Sorted finalTsLE [FireUpdate.mk "cam" 0 5 5 ()] :=
  ⟨by decide,
   c2_queue_ordering.1 Unit 0 [] "cam" 0 5 5 () [⟨"cam", 0, 5, 5, ()⟩]
     List.sorted_nil (by decide)⟩

/-- Claim C9: enqueueFireUpdate aborts on its assert exactly when an entry
for the same camera and detection timestamp is already in the queue; with
no such entry the assert never fires. -/
theorem c9_enqueue_duplicate_assert :
    ∀ (σ : Type) (now : Int) (queue : List (FireUpdate σ)) cameraID cameraHeading
      timestamp finalTimestamp fireSegment,
      enqueueFireUpdate now queue cameraID cameraHeading timestamp finalTimestamp
          fireSegment = none ↔
        ∃ x ∈ queue, x.cameraID = cameraID ∧ x.timestamp = timestamp := by
  intro σ now queue cameraID cameraHeading timestamp finalTimestamp fireSegment
  unfold enqueueFireUpdate
  have hiff : (queue.filter
      (fun x => x.cameraID == cameraID && x.timestamp == timestamp)).length ≠ 0 ↔
      ∃ x ∈ queue, x.cameraID = cameraID ∧ x.timestamp = timestamp := by
    rw [Ne, List.length_eq_zero, List.filter_eq_nil_iff]
    push_neg
    simp
  split_ifs with h1 h2
  · simpa using hiff.mp h1
  · simpa using fun hx => h1 (hiff.mpr hx)
  · simpa using fun hx => h1 (hiff.mpr hx)

/-- Witness for C9: a duplicate (camera, timestamp) enqueue aborts. -/
theorem c9_enqueue_duplicate_assert_witness :
    enqueueFireUpdate (σ := Unit) 0 [⟨"cam", 0, 5, 5, ()⟩] "cam" 0 5 7 () = none :=
  (c9_enqueue_duplicate_assert Unit 0 [⟨"cam", 0, 5, 5, ()⟩] "cam" 0 5 7 ()).mpr
    ⟨⟨"cam", 0, 5, 5, ()⟩, List.mem_singleton.mpr rfl, rfl, rfl⟩

/-- Claim C10: the probable-observation dedup query keeps only rows with
timestamp strictly between t - 3600 and t, so the probable recorded at
exactly t for the observation itself (recordProbables runs before the
check in the main loop) never makes the observation suppress itself. -/
theorem c10_probables_strict_window :
    (∀ store cameraID heading (ts : Int) protoNum row,
      row ∈ probablesQuery store cameraID heading ts protoNum →
        ts - 60*60 < row.timestamp ∧ row.timestamp < ts)
    ∧ (∀ store cameraID heading (ts : Int) protoNum (row : ProbRow),
        row.timestamp = ts →
        isDuplicateProbables (recordProbables store row) cameraID heading ts protoNum =
          isDuplicateProbables store cameraID heading ts protoNum)
    ∧ (∀ store cameraID heading (ts : Int) protoNum,
        (mainLoopProbablesCheck store cameraID heading ts protoNum).1 =
          isDuplicateProbables store cameraID heading ts protoNum) := by
  have hfilt : ∀ (store : List ProbRow) cameraID heading (ts : Int) protoNum
      (row : ProbRow), row.timestamp = ts →
      probablesQuery (store ++ [row]) cameraID heading ts protoNum =
        probablesQuery store cameraID heading ts protoNum := by
    intro store cameraID heading ts protoNum row hts
    rw [probablesQuery, probablesQuery, List.filter_append]
    have : List.filter (fun r =>
        r.cameraName == cameraID && r.heading == heading &&
        decide (r.timestamp > ts - 60*60) && decide (r.timestamp < ts) &&
        r.protoNum == protoNum) [row] = [] := by
      simp [hts]
    rw [this, List.append_nil]
  refine ⟨?_, ?_, ?_⟩
  · intro store cameraID heading ts protoNum row h
    rw [probablesQuery, List.mem_filter] at h
    have := h.2
    simp only [Bool.and_eq_true, decide_eq_true_eq] at this
    exact ⟨this.1.1.2, this.1.2⟩
  · intro store cameraID heading ts protoNum row hts
    rw [isDuplicateProbables, isDuplicateProbables, recordProbables,
      hfilt store cameraID heading ts protoNum row hts]
  · intro store cameraID heading ts protoNum
    rw [mainLoopProbablesCheck]
    simp only
    rw [isDuplicateProbables, isDuplicateProbables, recordProbables,
      hfilt store cameraID heading ts protoNum ⟨cameraID, heading, ts, protoNum⟩ rfl]

/-- Witness for C10: recording a probable at exactly the observation's
timestamp does not change the dedup verdict (false on the empty store). -/
theorem c10_probables_strict_window_witness :
    isDuplicateProbables (recordProbables [] ⟨"cam", 0, 50, 0⟩) "cam" 0 50 0 =
      isDuplicateProbables [] "cam" 0 50 0 :=
  c10_probables_strict_window.2.1 [] "cam" 0 50 0 ⟨"cam", 0, 50, 0⟩ rfl

/-- The prototype-compatibility filter of the isDuplicateDetection loop
body, as a propositional characterisation. -/
theorem dedupEntry_iff (protoNum p : Nat) (ov : Bool) :
    (if protoNum = 0 ∧ p > 1 then false
     else if protoNum > 0 ∧ protoNum ≠ p then false else ov) = true ↔
      ((protoNum = 0 ∧ p ≤ 1) ∨ (0 < protoNum ∧ p = protoNum)) ∧ ov = true := by
  split_ifs with h1 h2
  · constructor
    · intro h; cases h
    · rintro ⟨hc, -⟩
      exfalso
      rcases hc with ⟨-, hp⟩ | ⟨hpos, -⟩ <;> omega
  · constructor
    · intro h; cases h
    · rintro ⟨hc, -⟩
      exfalso
      rcases hc with ⟨h0, -⟩ | ⟨-, hp⟩ <;> omega
  · rw [not_and_or] at h1 h2
    constructor
    · intro h
      refine ⟨?_, h⟩
      rcases Nat.eq_zero_or_pos protoNum with hz | hpos
      · left
        refine ⟨hz, ?_⟩
        rcases h1 with h1 | h1 <;> omega
      · right
        refine ⟨hpos, ?_⟩
        rcases h2 with h2 | h2 <;> omega
    · exact fun h => h.2

/-- Claim C5: isDuplicateDetection suppresses exactly when some stored
event in the strict two-hour window at the same location has a compatible
prototype-model number (production observations against events recorded
under the production model, stored isproto 0 or 1; prototype observations
with model number N only against events stored under that same N) and an
overlapping angular sector. -/
theorem c5_dedup_proto_compatibility :
    ∀ store locId overlap cameraID (fh ra : ℚ) (ts : Int) (protoNum : Nat),
      isDuplicateDetection store locId overlap cameraID fh ra ts protoNum = true ↔
        ∃ r ∈ store, ts - 2*60*60 < r.timestamp ∧ r.timestamp < ts ∧
          locId r.cameraName = locId cameraID ∧
          ((protoNum = 0 ∧ r.isproto ≤ 1) ∨ (0 < protoNum ∧ r.isproto = protoNum)) ∧
          overlap r.fireHeading r.angularWidth fh ra = true := by
  intro store locId overlap cameraID fh ra ts protoNum
  rw [isDuplicateDetection, List.any_eq_true]
  constructor
  · rintro ⟨entry, hmem, hpred⟩
    rw [dedupQuery, List.mem_filter] at hmem
    obtain ⟨hmem, hcond⟩ := hmem
    simp only [Bool.and_eq_true, decide_eq_true_eq, beq_iff_eq] at hcond
    rw [dedupEntry_iff] at hpred
    exact ⟨entry, hmem, hcond.1.1, hcond.1.2, hcond.2, hpred.1, hpred.2⟩
  · rintro ⟨entry, hmem, h1, h2, h3, h4, h5⟩
    refine ⟨entry, ?_, ?_⟩
    · rw [dedupQuery, List.mem_filter]
      refine ⟨hmem, ?_⟩
      simp only [Bool.and_eq_true, decide_eq_true_eq, beq_iff_eq]
      exact ⟨⟨h1, h2⟩, h3⟩
    · rw [dedupEntry_iff]
      exact ⟨h4, h5⟩

/-- Witness for C5: a production observation is suppressed by a stored
production-model event at the same location, in-window, with overlapping
sector. -/
theorem c5_dedup_proto_compatibility_witness :
    isDuplicateDetection [demoDetRow] (fun _ => 0) (fun _ _ _ _ => true)
      "cam" 0 0 200 0 = true :=
  (c5_dedup_proto_compatibility [demoDetRow] (fun _ => 0) (fun _ _ _ _ => true)
      "cam" 0 0 200 0).mpr
    ⟨demoDetRow, List.mem_singleton.mpr rfl, by decide, by decide, rfl,
      Or.inl ⟨rfl, by decide⟩, rfl⟩

/-- Claim C4: publishAlert returns true exactly when the camera is not a
prototype source, the weather-adjusted score meets the threshold, the
confirmed-event dedup does not flag a repeat, and no active prescribed
burn's point lies inside the camera's view polygon; in particular a
prototype source is always rejected, even with score 1. -/
theorem c4_publish_gate :
    (∀ g store locId overlap (thr : ℚ) isProtoCam cameraID (fh ra : ℚ) (ts : Int)
        (ws : ℚ) cvp rxBurns protoNum,
      publishAlert g store locId overlap thr isProtoCam cameraID fh ra ts ws cvp
          rxBurns protoNum = true ↔
        (isProtoCam = false ∧ thr ≤ ws ∧
          isDuplicateDetection store locId overlap cameraID fh ra ts protoNum = false ∧
          ∀ burn ∈ rxBurns, g.containsPoint cvp (burn.latitude, burn.longitude) = false))
    ∧ (∀ g store locId overlap (thr : ℚ) cameraID (fh ra : ℚ) (ts : Int) cvp rxBurns
        protoNum,
        publishAlert g store locId overlap thr true cameraID fh ra ts 1 cvp rxBurns
          protoNum = false) := by
  constructor
  · intro g store locId overlap thr isProtoCam cameraID fh ra ts ws cvp rxBurns protoNum
    rw [publishAlert]
    split_ifs with h1 h2 h3 h4
    · simp [h1]
    · simp only [Bool.false_eq_true, false_iff, not_and]
      intro _ hle
      exact absurd hle (not_le.mpr h2)
    · simp [h3]
    · rw [List.any_eq_true] at h4
      obtain ⟨burn, hmem, hpt⟩ := h4
      simp only [Bool.false_eq_true, false_iff, not_and]
      intro _ _ _ hall
      exact absurd (hall burn hmem) (by simp [hpt])
    · simp only [true_iff]
      refine ⟨by simpa using h1, not_lt.mp h2, by simpa using h3, ?_⟩
      intro burn hmem
      rw [Bool.not_eq_true, List.any_eq_false] at h4
      simpa using h4 burn hmem
  · intro g store locId overlap thr cameraID fh ra ts cvp rxBurns protoNum
    rw [publishAlert]
    simp

/-- Witness for C4: the prototype-rejection conjunct at concrete inputs. -/
theorem c4_publish_gate_witness :
    publishAlert voidGeo [] (fun _ => 0) (fun _ _ _ _ => false) 0 true "cam" 0 0 0 1
      [] [] 0 = false :=
  c4_publish_gate.2 voidGeo [] (fun _ => 0) (fun _ _ _ _ => false) 0 "cam" 0 0 0 [] [] 0

/-- Unfolding of a successful requeue step: the enqueue succeeded and the
effects only gained the requeued flag. -/
theorem requeueStep_eq {σ : Type} {nowReq : Int} {q : List (FireUpdate σ)}
    {fe : FireUpdate σ} {ft : Int} {eff eff2 : ProcessEffects}
    {q2 : List (FireUpdate σ)}
    (h : requeueStep nowReq q fe ft eff = some (eff2, q2)) :
    enqueueFireUpdate nowReq q fe.cameraID fe.cameraHeading fe.timestamp ft
        fe.fireSegment = some q2 ∧
      eff2 = { eff with requeued := decide (q2.length = q.length + 1) } := by
  unfold requeueStep at h
  cases henq : enqueueFireUpdate nowReq q fe.cameraID fe.cameraHeading fe.timestamp ft
      fe.fireSegment with
  | none => rw [henq] at h; cases h
  | some q3 =>
    rw [henq] at h
    simp only [Option.some.injEq, Prod.mk.injEq] at h
    obtain ⟨he, hq⟩ := h
    constructor
    · rw [hq]
    · rw [← he, hq]

/-- Requeueing past the post-detection horizon never appends: the enqueue's
own timeout check silently discards the entry. -/
theorem requeueStep_past_horizon {σ : Type} {nowReq : Int} {q : List (FireUpdate σ)}
    {fe : FireUpdate σ} {ft : Int} {eff eff2 : ProcessEffects}
    {q2 : List (FireUpdate σ)}
    (hlate : nowReq > fe.timestamp + POST_DETECTION_UPDATE_MINS * 60)
    (h : requeueStep nowReq q fe ft eff = some (eff2, q2)) :
    eff2.requeued = false := by
  obtain ⟨henq, heff⟩ := requeueStep_eq h
  unfold enqueueFireUpdate at henq
  split_ifs at henq with h1
  injection henq with hq
  rw [heff, ← hq]
  simp

/-- Requeueing within the horizon appends the entry (with the supplied
final timestamp) and re-sorts. -/
theorem requeueStep_in_horizon {σ : Type} {nowReq : Int} {q : List (FireUpdate σ)}
    {fe : FireUpdate σ} {ft : Int} {eff eff2 : ProcessEffects}
    {q2 : List (FireUpdate σ)}
    (hontime : ¬ nowReq > fe.timestamp + POST_DETECTION_UPDATE_MINS * 60)
    (h : requeueStep nowReq q fe ft eff = some (eff2, q2)) :
    eff2.requeued = true ∧
      q2 = List.insertionSort finalTsLE
        (q ++ [⟨fe.cameraID, fe.cameraHeading, fe.timestamp, ft, fe.fireSegment⟩]) := by
  obtain ⟨henq, heff⟩ := requeueStep_eq h
  unfold enqueueFireUpdate at henq
  split_ifs at henq with h1
  injection henq with hq
  refine ⟨?_, hq.symm⟩
  rw [heff, ← hq]
  simp [List.length_insertionSort]

/-- A requeue of a popped entry is discarded when the entry was popped past
the post-detection horizon, for any effects argument carrying the popped
entry's timestamp. -/
theorem requeueStep_late_of {σ : Type} {nowPop nowReq : Int} {q : List (FireUpdate σ)}
    {fe : FireUpdate σ} {ft : Int} {effArg eff : ProcessEffects}
    {q2 : List (FireUpdate σ)}
    (hmono : nowPop ≤ nowReq)
    (hts : effArg.timestamp = fe.timestamp)
    (hlate : nowPop > eff.timestamp + POST_DETECTION_UPDATE_MINS * 60)
    (h : requeueStep nowReq q fe ft effArg = some (eff, q2)) :
    eff.requeued = false := by
  obtain ⟨henq, heff⟩ := requeueStep_eq h
  have hts2 : eff.timestamp = fe.timestamp := by rw [heff]; exact hts
  rw [hts2] at hlate
  exact requeueStep_past_horizon (by omega) h

/-- Claim C3 counterexample: an entry popped 500 seconds after its
detection timestamp 0 — past the 7-minute horizon — still gets its
new-frame check, its evidence regeneration, and its outward notification;
only the requeue is suppressed.  This refutes the claim that a pop past the
horizon discards unconditionally with no further processing. -/
theorem c3_counterexample :
    processEnqueuedUpdates demoPEnv 500 500 [staleEntry] = some (lateEffects, []) ∧
    500 > staleEntry.timestamp + POST_DETECTION_UPDATE_MINS * 60 ∧
    lateEffects.checkedNewImage = true ∧ lateEffects.regenerated = true ∧
    lateEffects.notified = true := by decide

/-- Claim C3 (amended): an entry popped past the 7-minute post-detection
horizon is never requeued — the requeue-time enqueue discards it — although
the new-frame check, evidence regeneration, and notification may still run
for that popped entry. -/
theorem c3_requeue_horizon {σ : Type} (env : PEnv) (nowPop nowReq : Int)
    (queue : List (FireUpdate σ)) (eff : ProcessEffects) (q2 : List (FireUpdate σ))
    (hmono : nowPop ≤ nowReq)
    (hrun : processEnqueuedUpdates env nowPop nowReq queue = some (eff, q2))
    (hpop : eff.popped = true)
    (hlate : nowPop > eff.timestamp + POST_DETECTION_UPDATE_MINS * 60) :
    eff.requeued = false := by
  simp only [processEnqueuedUpdates] at hrun
  split at hrun
  · simp only [Option.some.injEq, Prod.mk.injEq] at hrun
    rw [← hrun.1] at hpop
    simp [noEffects] at hpop
  · split at hrun
    · exact requeueStep_late_of hmono rfl hlate hrun
    · split at hrun
      · exact requeueStep_late_of hmono rfl hlate hrun
      · split at hrun
        · cases hrun
        · split at hrun
          · split at hrun
            · cases hrun
            · split at hrun
              · split at hrun
                · exact requeueStep_late_of hmono rfl hlate hrun
                · exact requeueStep_late_of hmono rfl hlate hrun
              · split at hrun
                · simp only [Option.some.injEq, Prod.mk.injEq] at hrun
                  rw [← hrun.1]
                  rfl
                · simp only [Option.some.injEq, Prod.mk.injEq] at hrun
                  rw [← hrun.1]
                  rfl
          · simp only [Option.some.injEq, Prod.mk.injEq] at hrun
            rw [← hrun.1]
            rfl

/-- Witness for the amended C3: the concrete late run is not requeued. -/
theorem c3_requeue_horizon_witness : lateEffects.requeued = false :=
  c3_requeue_horizon demoPEnv 500 500 [staleEntry] lateEffects []
    (by decide) (by decide) (by decide) (by decide)

/-- Claim C6 counterexample: a regenerated update with 0 post-detection
frames (non-terminal) that passes the alert gate emits the outward pubsub
notification and is also requeued — refuting "never on a non-terminal
update" and "exactly once per event". -/
theorem c6_counterexample :
    processEnqueuedUpdates demoPEnv 70 70 [staleEntry] =
      some (earlyEffects, [⟨"camA", 0, 0, 100, ()⟩]) ∧
    earlyEffects.isFinalMovie = false ∧ earlyEffects.notified = true ∧
    earlyEffects.requeued = true := by decide

/-- Claim C6 (amended): an update is terminal ("final movie") exactly when
the post-detection frame count exceeds 2; a terminal update is never
requeued; the notification is emitted only after a successful regeneration
that updates the stored movie and passes the alert gate — but it is emitted
on every such regeneration, terminal or not, so non-terminal gate-passing
updates notify too and are additionally requeued with the advanced final
timestamp (when the requeue is within the post-detection horizon). -/
theorem c6_evidence_finalization :
    (∀ (env : PEnv) (m : Option String) (f : Int) (fin : Bool),
      updateMovie env = .result m f fin → (fin = true ↔ env.genMoviePostCount > 2))
    ∧ (∀ (σ : Type) (env : PEnv) (nowPop nowReq : Int) (queue : List (FireUpdate σ))
        (eff : ProcessEffects) (q2 : List (FireUpdate σ)),
        processEnqueuedUpdates env nowPop nowReq queue = some (eff, q2) →
        eff.isFinalMovie = true → eff.requeued = false)
    ∧ (∀ (σ : Type) (env : PEnv) (nowPop nowReq : Int) (queue : List (FireUpdate σ))
        (eff : ProcessEffects) (q2 : List (FireUpdate σ)),
        processEnqueuedUpdates env nowPop nowReq queue = some (eff, q2) →
        eff.notified = true →
          eff.regenerated = true ∧ eff.updatedDetectionsMovie = true ∧
            eff.updatedAlertsMovie = true)
    ∧ (∀ (σ : Type) (env : PEnv) (nowPop nowReq : Int) (queue : List (FireUpdate σ))
        (fe : FireUpdate σ) (q : List (FireUpdate σ)) (eff : ProcessEffects)
        (q2 : List (FireUpdate σ)) (dd : DetectData) (m : Option String) (f : Int),
        processEnqueuedUpdates env nowPop nowReq queue = some (eff, q2) →
        popFireUpdate nowPop queue = (some fe, q) →
        env.detectData = some dd → env.newImage = true →
        updateMovie env = .result m f false → m.isSome = true → f ≠ 0 →
        ¬ nowReq > fe.timestamp + POST_DETECTION_UPDATE_MINS * 60 →
        eff.requeued = true ∧
          q2 = List.insertionSort finalTsLE
            (q ++ [⟨fe.cameraID, fe.cameraHeading, fe.timestamp, f, fe.fireSegment⟩])) := by
  refine ⟨?_, ?_, ?_, ?_⟩
  · intro env m f fin h
    unfold updateMovie at h
    split_ifs at h with h1
    injection h with hm hf hfin
    rw [← hfin]
    simp
  · intro σ env nowPop nowReq queue eff q2 hrun hfin
    simp only [processEnqueuedUpdates] at hrun
    split at hrun
    · simp only [Option.some.injEq, Prod.mk.injEq] at hrun
      rw [← hrun.1]
      rfl
    · split at hrun
      · obtain ⟨henq, heff⟩ := requeueStep_eq hrun
        rw [heff] at hfin
        simp [noEffects] at hfin
      · split at hrun
        · obtain ⟨henq, heff⟩ := requeueStep_eq hrun
          rw [heff] at hfin
          simp [noEffects] at hfin
        · split at hrun
          · cases hrun
          · split at hrun
            · split at hrun
              · cases hrun
              · split at hrun
                · rename_i hfm
                  split at hrun
                  · obtain ⟨henq, heff⟩ := requeueStep_eq hrun
                    rw [heff] at hfin
                    simp [hfm] at hfin
                  · obtain ⟨henq, heff⟩ := requeueStep_eq hrun
                    rw [heff] at hfin
                    simp [hfm] at hfin
                · split at hrun
                  · simp only [Option.some.injEq, Prod.mk.injEq] at hrun
                    rw [← hrun.1]
                    rfl
                  · simp only [Option.some.injEq, Prod.mk.injEq] at hrun
                    rw [← hrun.1]
                    rfl
            · simp only [Option.some.injEq, Prod.mk.injEq] at hrun
              rw [← hrun.1]
              rfl
  · intro σ env nowPop nowReq queue eff q2 hrun hnot
    simp only [processEnqueuedUpdates] at hrun
    split at hrun
    · simp only [Option.some.injEq, Prod.mk.injEq] at hrun
      rw [← hrun.1] at hnot
      simp [noEffects] at hnot
    · split at hrun
      · obtain ⟨henq, heff⟩ := requeueStep_eq hrun
        rw [heff] at hnot
        simp [noEffects] at hnot
      · split at hrun
        · obtain ⟨henq, heff⟩ := requeueStep_eq hrun
          rw [heff] at hnot
          simp [noEffects] at hnot
        · split at hrun
          · cases hrun
          · split at hrun
            · split at hrun
              · cases hrun
              · split at hrun
                · split at hrun
                  · obtain ⟨henq, heff⟩ := requeueStep_eq hrun
                    rw [heff]
                    exact ⟨rfl, rfl, rfl⟩
                  · obtain ⟨henq, heff⟩ := requeueStep_eq hrun
                    rw [heff] at hnot
                    simp [noEffects] at hnot
                · split at hrun
                  · simp only [Option.some.injEq, Prod.mk.injEq] at hrun
                    rw [← hrun.1]
                    exact ⟨rfl, rfl, rfl⟩
                  · simp only [Option.some.injEq, Prod.mk.injEq] at hrun
                    rw [← hrun.1] at hnot
                    simp [noEffects] at hnot
            · simp only [Option.some.injEq, Prod.mk.injEq] at hrun
              rw [← hrun.1] at hnot
              simp [noEffects] at hnot
  · intro σ env nowPop nowReq queue fe q eff q2 dd m f hrun hpq hdd hnew hmov hm hf
      hontime
    simp only [processEnqueuedUpdates] at hrun
    split at hrun
    · rename_i heq
      rw [hpq] at heq
      simp at heq
    · rename_i x fe2 q3 heq
      rw [hpq] at heq
      simp only [Prod.mk.injEq, Option.some.injEq] at heq
      obtain ⟨hfe, hqq⟩ := heq
      subst hfe
      subst hqq
      split at hrun
      · rename_i heq2
        rw [hdd] at heq2
        cases heq2
      · rename_i x2 dd2 heq2
        rw [hdd] at heq2
        injection heq2 with hdd2
        subst hdd2
        split at hrun
        · rename_i hni
          rw [hnew] at hni
          cases hni
        · split at hrun
          · rename_i heq3
            rw [hmov] at heq3
            cases heq3
          · rename_i x3 mid ft fin heq3
            rw [hmov] at heq3
            injection heq3 with hm1 hf1 hfin1
            subst hm1
            subst hf1
            split at hrun
            · split at hrun
              · cases hrun
              · split at hrun
                · split at hrun
                  · exact requeueStep_in_horizon hontime hrun
                  · exact requeueStep_in_horizon hontime hrun
                · rename_i hnf
                  exact absurd hfin1.symm hnf
            · rename_i hcond
              exact absurd ⟨hm, hf⟩ hcond

/-- Witness for the amended C6: a terminal run (3 post-detection frames)
is not requeued. -/
theorem c6_evidence_finalization_witness : finalEffects.requeued = false :=
  c6_evidence_finalization.2.1 Unit demoPEnvFinal 70 70 [staleEntry] finalEffects []
    (by decide) (by decide)

/-- Claim C8: in a completed fireDetected run that is not an ignored view,
when the alert gate evaluates to false on the updated store, the
DetectionEvent row is still persisted (appended to the detections store,
visible to future dedup and consensus queries) while none of the outward
notifications — alerts row, pubsub message, email, or SMS — is produced. -/
theorem c8_persist_without_notification (env : FDEnv) (now : Int) (cameraID : String)
    (cameraHeading timestamp : Int) (queue : List (FireUpdate Unit))
    (eff : FDEffects) (q2 : List (FireUpdate Unit)) (store2 : List DetectionRow)
    (cvp : Poly)
    (hrun : fireDetected env now cameraID cameraHeading timestamp queue =
      some (eff, q2, store2))
    (hnotig : eff.ignored = false)
    (hcvp : intersectLand env.geo env.triangle = some cvp)
    (hgate : publishAlert env.geo store2 env.locId env.overlap env.weatherThreshold
        env.isProtoCam cameraID env.fireHeading env.rangeAngle timestamp
        env.weatherScore cvp env.rxBurns env.protoNum = false) :
    eff.insertedDetection = true ∧ eff.insertedAlert = false ∧ eff.pubsub = false ∧
      eff.email = false ∧ eff.sms = false ∧
      store2 = env.store ++ [insertedRow env cameraID timestamp
        (consensusMerge env.geo env.store timestamp cvp).1
        (consensusMerge env.geo env.store timestamp cvp).2] := by
  simp only [fireDetected] at hrun
  split at hrun
  · simp only [Option.some.injEq, Prod.mk.injEq] at hrun
    rw [← hrun.1] at hnotig
    simp [fdNoEffects] at hnotig
  · split at hrun
    · cases hrun
    · rename_i cvp2 hcvp2
      rw [hcvp] at hcvp2
      injection hcvp2 with hc
      subst hc
      split at hrun
      · simp only [Option.some.injEq, Prod.mk.injEq] at hrun
        obtain ⟨he, hq, hs⟩ := hrun
        rw [← he, ← hs]
        exact ⟨rfl, rfl, rfl, rfl, rfl, rfl⟩
      · split at hrun
        · cases hrun
        · split at hrun
          · rename_i hpub
            simp only [Option.some.injEq, Prod.mk.injEq] at hrun
            obtain ⟨he, hq, hs⟩ := hrun
            rw [← hs] at hgate
            rw [hpub] at hgate
            cases hgate
          · simp only [Option.some.injEq, Prod.mk.injEq] at hrun
            obtain ⟨he, hq, hs⟩ := hrun
            rw [← he, ← hs]
            exact ⟨rfl, rfl, rfl, rfl, rfl, rfl⟩

/-- Witness for C8: a prototype camera's detection (gate false) is
persisted with no outward notification. -/
theorem c8_persist_without_notification_witness :
    gateRejectedEffects.insertedDetection = true ∧
    gateRejectedEffects.insertedAlert = false ∧ gateRejectedEffects.pubsub = false ∧
    gateRejectedEffects.email = false ∧ gateRejectedEffects.sms = false ∧
    demoStore2 = demoFDEnv.store ++ [insertedRow demoFDEnv "cam" 5
      (consensusMerge demoFDEnv.geo demoFDEnv.store 5 [(0, 0), (1, 0), (0, 1)]).1
      (consensusMerge demoFDEnv.geo demoFDEnv.store 5 [(0, 0), (1, 0), (0, 1)]).2] :=
  c8_persist_without_notification demoFDEnv 0 "cam" 0 5 [] gateRejectedEffects
    [⟨"cam", 0, 5, 10, ()⟩] demoStore2 [(0, 0), (1, 0), (0, 1)]
    (by decide) (by decide) (by decide) (by decide)

end Firecam
